import Mathlib

/-!
Shallow embedding of the edrwanda backend (src/app.js): an Express server over
a supabase store.  Handlers are modeled as pure functions; each supabase query
result is passed in as the (data, error) pair the client returns, and the
store contents are modeled as lists of rows.  External collaborators (bcrypt,
jwt) are parameters of the handlers that use them.
-/

namespace EdRwanda

/-- A row of the `users` relation (the columns the handlers read). -/
structure User where
  id : Nat
  email : String
  password : String
  name : String
  role : String
deriving DecidableEq

/-- A row of the `courses` relation (the columns the handlers read). -/
structure Course where
  id : Nat
  title : String
deriving DecidableEq

/-- A row of the `enrollments` relation. -/
structure Enrollment where
  id : Nat
  user_id : Nat
  course_id : Nat
  progress : Int
  created_at : Nat
deriving DecidableEq

/-- A row of the `certificates` relation. -/
structure Certificate where
  user_id : Nat
  course_id : Nat
  issued_at : Nat
deriving DecidableEq

/-! ### Auth middleware (src/app.js lines 25-45) -/

/-- Outcome of the authenticate middleware: a rejection response, or the
request proceeds with the user row attached to the request. -/
inductive AuthOutcome where
  | reject (status : Nat) (error : String)
  | proceed (user : User)
deriving DecidableEq

/-- Accumulator recursion behind `jsSplit`. -/
def splitAux (sep : Char) : List Char → List Char → List String
  | [], acc => [String.mk acc.reverse]
  | c :: cs, acc =>
    if c = sep then String.mk acc.reverse :: splitAux sep cs []
    else splitAux sep cs (c :: acc)

/-- JS `String.prototype.split` with a single-character separator:
`"a b".split(' ') = ["a","b"]`, `"".split(' ') = [""]`,
`"Bearer ".split(' ') = ["Bearer",""]`. -/
def jsSplit (sep : Char) (s : String) : List String := splitAux sep s.data []

/-- `req.headers.authorization?.split(' ')[1]`: the second space-separated
component of the Authorization header, when present. -/
def extractToken (authHeader : Option String) : Option String :=
  authHeader.bind fun h => (jsSplit ' ' h)[1]?

/-- The authenticate middleware.  `verify` is `jwt.verify` (throwing modeled
as `Except.error`); `lookup` is the users-by-id `.single()` query, returning
the (data, error) pair.  The `if t = ""` branch reflects JS falsiness of an
empty token string in `if (!token)`. -/
def authenticate (verify : String → Except String Nat)
    (lookup : Nat → Option User × Option String)
    (authHeader : Option String) : AuthOutcome :=
  match extractToken authHeader with
  | none => .reject 401 "Access denied"
  | some t =>
    if t = "" then .reject 401 "Access denied"
    else
      match verify t with
      | .error _ => .reject 400 "Invalid token"
      | .ok decodedId =>
        match lookup decodedId with
        | (some u, none) => .proceed u
        | _ => .reject 401 "Invalid token"

/-! ### Register handler (src/app.js lines 59-94) -/

/-- The register request body; `role` is `none` when the field is absent
(JS destructuring default applies). -/
structure RegisterBody where
  email : String
  password : String
  name : String
  role : Option String
deriving DecidableEq

/-- Response shape shared by register and login: on success a 2xx status with
the public user fields and a token, on failure a status and an error
message.  The password hash is never part of the response. -/
structure AuthResponse where
  status : Nat
  userId : Option Nat
  userName : Option String
  userEmail : Option String
  userRole : Option String
  token : Option String
  error : Option String
deriving DecidableEq

/-- The users row inserted by register: the hashed password and
`role = 'student'` only when the body carries no role. -/
def registerInsert (hash : String → String) (freshId : Nat)
    (b : RegisterBody) : User :=
  { id := freshId, email := b.email, password := hash b.password,
    name := b.name, role := b.role.getD "student" }

/-- The register handler on the path where the insert succeeds: status 201
with the inserted row's public fields and a signed token.  Returns the
response together with the inserted row. -/
def register (hash : String → String) (sign : Nat → String) (freshId : Nat)
    (b : RegisterBody) : AuthResponse × User :=
  let row := registerInsert hash freshId b
  ({ status := 201, userId := some row.id, userName := some row.name,
     userEmail := some row.email, userRole := some row.role,
     token := some (sign row.id), error := none }, row)

/-! ### Login handler (src/app.js lines 97-129) -/

/-- The login handler.  `lookupResult` is the users-by-email `.single()`
query result; `compare` is `bcrypt.compare`; `sign` is `jwt.sign`.  Both the
lookup-failure and the password-mismatch paths throw
`Error("Invalid credentials")`, caught as a 401 response. -/
def login (lookupResult : Option User × Option String)
    (compare : String → String → Bool) (sign : Nat → String)
    (password : String) : AuthResponse :=
  match lookupResult with
  | (some user, none) =>
    if compare password user.password then
      { status := 200, userId := some user.id, userName := some user.name,
        userEmail := some user.email, userRole := some user.role,
        token := some (sign user.id), error := none }
    else
      { status := 401, userId := none, userName := none, userEmail := none,
        userRole := none, token := none, error := some "Invalid credentials" }
  | _ =>
      { status := 401, userId := none, userName := none, userEmail := none,
        userRole := none, token := none, error := some "Invalid credentials" }

/-! ### Claims C8, C9, C10 -/

/-- Claim C8: the Auth Middleware maps failures exactly as: no token present
(header absent or with no second component, or an empty token) gives 401
"Access denied"; token verification failure gives 400 "Invalid token"; user
lookup error or no user found gives 401 "Invalid token"; otherwise it attaches
the full user row and continues. -/
theorem authenticate_failure_map (verify : String → Except String Nat)
    (lookup : Nat → Option User × Option String) (h : Option String) :
    (extractToken h = none ∨ extractToken h = some "" →
      authenticate verify lookup h = .reject 401 "Access denied") ∧
    (∀ t m, extractToken h = some t → t ≠ "" → verify t = .error m →
      authenticate verify lookup h = .reject 400 "Invalid token") ∧
    (∀ t i, extractToken h = some t → t ≠ "" → verify t = .ok i →
      ((lookup i).1 = none ∨ (lookup i).2 ≠ none) →
      authenticate verify lookup h = .reject 401 "Invalid token") ∧
    (∀ t i u, extractToken h = some t → t ≠ "" → verify t = .ok i →
      lookup i = (some u, none) →
      authenticate verify lookup h = .proceed u) := by
  refine ⟨?_, ?_, ?_, ?_⟩
  · rintro (he | he) <;> simp [authenticate, he]
  · intro t m het hne hver
    simp [authenticate, het, hne, hver]
  · intro t i het hne hver hfail
    rcases hl : lookup i with ⟨d, er⟩
    rw [hl] at hfail
    simp only [authenticate, het, if_neg hne, hver, hl]
    rcases d with _ | u <;> rcases er with _ | msg <;> simp_all
  · intro t i u het hne hver hl
    simp [authenticate, het, hne, hver, hl]

/-- Witness for C8: the four cases of `authenticate_failure_map` at concrete
headers, verifier and lookup. -/
theorem authenticate_failure_map_witness :
    (authenticate (fun s => if s = "good" then .ok 1 else .error "bad")
      (fun i => if i = 1 then (some ⟨1, "a@b", "h", "A", "student"⟩, none)
                else (none, some "no rows"))
      none = .reject 401 "Access denied") ∧
    (authenticate (fun s => if s = "good" then .ok 1 else .error "bad")
      (fun i => if i = 1 then (some ⟨1, "a@b", "h", "A", "student"⟩, none)
                else (none, some "no rows"))
      (some "Bearer oops") = .reject 400 "Invalid token") ∧
    (authenticate (fun s => if s = "good" then .ok 2 else .error "bad")
      (fun i => if i = 1 then (some ⟨1, "a@b", "h", "A", "student"⟩, none)
                else (none, some "no rows"))
      (some "Bearer good") = .reject 401 "Invalid token") ∧
    (authenticate (fun s => if s = "good" then .ok 1 else .error "bad")
      (fun i => if i = 1 then (some ⟨1, "a@b", "h", "A", "student"⟩, none)
                else (none, some "no rows"))
      (some "Bearer good") = .proceed ⟨1, "a@b", "h", "A", "student"⟩) := by
  refine ⟨?_, ?_, ?_, ?_⟩
  · exact (authenticate_failure_map _ _ none).1 (Or.inl rfl)
  · exact (authenticate_failure_map _ _ _).2.1 "oops" "bad" rfl (by decide) rfl
  · exact (authenticate_failure_map _ _ _).2.2.1 "good" 2 rfl (by decide) rfl
      (Or.inl rfl)
  · exact (authenticate_failure_map _ _ _).2.2.2 "good" 1 _ rfl (by decide) rfl rfl

/-- Claim C9: a login whose email matches no user and a login that finds a
user but fails password verification produce identical responses, both 401
with error "Invalid credentials". -/
theorem login_no_user_enumeration (e : String) (u : User)
    (compare : String → String → Bool) (sign : Nat → String) (pw : String)
    (hpw : compare pw u.password = false) :
    login (none, some e) compare sign pw = login (some u, none) compare sign pw ∧
    (login (none, some e) compare sign pw).status = 401 ∧
    (login (none, some e) compare sign pw).error = some "Invalid credentials" := by
  refine ⟨?_, rfl, rfl⟩
  simp [login, hpw]

/-- Witness for C9 at a concrete user and a comparison that rejects. -/
theorem login_no_user_enumeration_witness :
    login (none, some "PGRST116") (fun _ _ => false) (fun _ => "tok") "pw" =
      login (some ⟨1, "a@b", "hash", "A", "student"⟩, none)
        (fun _ _ => false) (fun _ => "tok") "pw" ∧
    (login (none, some "PGRST116") (fun _ _ => false) (fun _ => "tok")
      "pw").status = 401 ∧
    (login (none, some "PGRST116") (fun _ _ => false) (fun _ => "tok")
      "pw").error = some "Invalid credentials" :=
  login_no_user_enumeration "PGRST116" ⟨1, "a@b", "hash", "A", "student"⟩
    (fun _ _ => false) (fun _ => "tok") "pw" rfl

/-- Claim C10: register takes the role field from the request body with no
whitelist or authorization check: any supplied role string is stored in the
inserted users row and echoed in the response, and "student" is used only
when the field is absent. -/
theorem register_role_unchecked (hash : String → String) (sign : Nat → String)
    (freshId : Nat) (b : RegisterBody) :
    (∀ r, b.role = some r →
      (register hash sign freshId b).2.role = r ∧
      (register hash sign freshId b).1.userRole = some r) ∧
    (b.role = none →
      (register hash sign freshId b).2.role = "student" ∧
      (register hash sign freshId b).1.userRole = some "student") := by
  constructor
  · intro r hr
    constructor <;> simp [register, registerInsert, hr]
  · intro hr
    constructor <;> simp [register, registerInsert, hr]

/-- Witness for C10: a request supplying role "instructor" is stored and
echoed verbatim; a request with no role gets "student". -/
theorem register_role_unchecked_witness :
    ((register id (fun _ => "tok") 7
        ⟨"a@b", "pw", "A", some "instructor"⟩).2.role = "instructor" ∧
      (register id (fun _ => "tok") 7
        ⟨"a@b", "pw", "A", some "instructor"⟩).1.userRole =
          some "instructor") ∧
    ((register id (fun _ => "tok") 7 ⟨"a@b", "pw", "A", none⟩).2.role =
        "student" ∧
      (register id (fun _ => "tok") 7 ⟨"a@b", "pw", "A", none⟩).1.userRole =
        some "student") :=
  ⟨(register_role_unchecked id (fun _ => "tok") 7
      ⟨"a@b", "pw", "A", some "instructor"⟩).1 "instructor" rfl,
   (register_role_unchecked id (fun _ => "tok") 7
      ⟨"a@b", "pw", "A", none⟩).2 rfl⟩

/-! ### Enroll handler (src/app.js lines 176-207) -/

/-- Response shape of enroll and update-progress: a status, an optional error
message and an optional enrollment row as body (`none` models a body of
`undefined`). -/
structure EnrollResponse where
  status : Nat
  error : Option String
  body : Option Enrollment
deriving DecidableEq

/-- The rows matching `.eq('user_id', ...).eq('course_id', ...)` in the
existence check of enroll. -/
def existingEnrollments (db : List Enrollment) (userId courseId : Nat) :
    List Enrollment :=
  db.filter fun e => e.user_id == userId && e.course_id == courseId

/-- The enroll handler on the path where both store calls succeed; the store
assigns `freshId` and `createdAt` to the inserted row.  Returns the response
together with the enrollments relation after the request. -/
def enroll (db : List Enrollment) (userId courseId freshId createdAt : Nat) :
    EnrollResponse × List Enrollment :=
  if (existingEnrollments db userId courseId).length > 0 then
    ({ status := 400, error := some "Already enrolled", body := none }, db)
  else
    let row : Enrollment :=
      { id := freshId, user_id := userId, course_id := courseId,
        progress := 0, created_at := createdAt }
    ({ status := 201, error := none, body := some row }, db ++ [row])

/-! ### Update-progress handler (src/app.js lines 232-249) -/

/-- The filter of the update query: `.eq('id', ...).eq('user_id', ...)`. -/
def matchesUpdate (e : Enrollment) (enrollmentId userId : Nat) : Bool :=
  e.id == enrollmentId && e.user_id == userId

/-- The enrollments relation after the update query: the progress value is
written verbatim into every row matching both filters. -/
def updatedDb (db : List Enrollment) (enrollmentId userId : Nat) (p : Int) :
    List Enrollment :=
  db.map fun e =>
    if matchesUpdate e enrollmentId userId then { e with progress := p } else e

/-- The rows `.update({progress}).eq(id).eq(user_id).select()` returns: the
matching rows with the new progress value. -/
def updatedRows (db : List Enrollment) (enrollmentId userId : Nat) (p : Int) :
    List Enrollment :=
  (db.filter fun e => matchesUpdate e enrollmentId userId).map
    fun e => { e with progress := p }

/-- The update-progress handler: a store error gives 400 with the raw
message; otherwise 200 with `data[0]` as the body — `none` when no row
matched, since indexing an empty result yields `undefined`.  Returns the
response together with the enrollments relation after the request. -/
def updateProgress (storeError : Option String) (db : List Enrollment)
    (enrollmentId userId : Nat) (p : Int) :
    EnrollResponse × List Enrollment :=
  match storeError with
  | some msg => ({ status := 400, error := some msg, body := none }, db)
  | none =>
    ({ status := 200, error := none,
       body := (updatedRows db enrollmentId userId p).head? },
     updatedDb db enrollmentId userId p)

/-! ### Claims C7 and C3 -/

/-- Claim C7: if an enrollment with the same (user_id, course_id) already
exists, enroll responds 400 "Already enrolled" and inserts nothing; otherwise
it inserts exactly one enrollment with progress 0 and responds 201 with the
created row. -/
theorem enroll_duplicate_check (db : List Enrollment)
    (userId courseId freshId createdAt : Nat) :
    ((∃ e ∈ db, e.user_id = userId ∧ e.course_id = courseId) →
      enroll db userId courseId freshId createdAt =
        ({ status := 400, error := some "Already enrolled", body := none },
         db)) ∧
    ((∀ e ∈ db, ¬(e.user_id = userId ∧ e.course_id = courseId)) →
      ∃ row, row.user_id = userId ∧ row.course_id = courseId ∧
        row.progress = 0 ∧
        enroll db userId courseId freshId createdAt =
          ({ status := 201, error := none, body := some row },
           db ++ [row])) := by
  constructor
  · rintro ⟨e, he, hu, hc⟩
    have hmem : e ∈ existingEnrollments db userId courseId := by
      simp [existingEnrollments, List.mem_filter, he, hu, hc]
    have hlen : (existingEnrollments db userId courseId).length > 0 :=
      List.length_pos.mpr (fun hnil => by simp [hnil] at hmem)
    simp [enroll, hlen]
  · intro hnone
    refine ⟨{ id := freshId, user_id := userId, course_id := courseId,
              progress := 0, created_at := createdAt }, rfl, rfl, rfl, ?_⟩
    have hnil : existingEnrollments db userId courseId = [] := by
      rw [existingEnrollments, List.filter_eq_nil_iff]
      intro e he
      have := hnone e he
      simp only [Bool.and_eq_true, beq_iff_eq]
      tauto
    simp [enroll, hnil]

/-- Witness for C7: both branches at concrete stores. -/
theorem enroll_duplicate_check_witness :
    (enroll [{ id := 3, user_id := 1, course_id := 2, progress := 40,
               created_at := 9 }] 1 2 7 11 =
      ({ status := 400, error := some "Already enrolled", body := none },
       [{ id := 3, user_id := 1, course_id := 2, progress := 40,
          created_at := 9 }])) ∧
    (∃ row, row.user_id = 1 ∧ row.course_id = 5 ∧ row.progress = 0 ∧
      enroll [{ id := 3, user_id := 1, course_id := 2, progress := 40,
                created_at := 9 }] 1 5 7 11 =
        ({ status := 201, error := none, body := some row },
         [{ id := 3, user_id := 1, course_id := 2, progress := 40,
            created_at := 9 }] ++ [row])) :=
  ⟨(enroll_duplicate_check _ 1 2 7 11).1
      ⟨_, List.mem_singleton.mpr rfl, rfl, rfl⟩,
   (enroll_duplicate_check _ 1 5 7 11).2 (by decide)⟩

/-- Claim C3: when the (enrollment id, user id) filter of update-progress
matches no row — in particular when the enrollment belongs to a different
user — the handler responds 200 with the first element of the empty result
set (undefined) as the body, not 403 and not 404. -/
theorem updateProgress_zero_rows (db : List Enrollment)
    (enrollmentId userId : Nat) (p : Int)
    (hnone : ∀ e ∈ db, ¬(e.id = enrollmentId ∧ e.user_id = userId)) :
    (updateProgress none db enrollmentId userId p).1.status = 200 ∧
    (updateProgress none db enrollmentId userId p).1.body = none ∧
    (updateProgress none db enrollmentId userId p).1.status ≠ 403 ∧
    (updateProgress none db enrollmentId userId p).1.status ≠ 404 := by
  have hnil : db.filter (fun e => matchesUpdate e enrollmentId userId) = [] := by
    rw [List.filter_eq_nil_iff]
    intro e he
    have := hnone e he
    simp only [matchesUpdate, Bool.and_eq_true, beq_iff_eq]
    tauto
  have hstatus : (updateProgress none db enrollmentId userId p).1.status = 200 :=
    rfl
  refine ⟨hstatus, ?_, by rw [hstatus]; decide, by rw [hstatus]; decide⟩
  simp [updateProgress, updatedRows, hnil]

/-- Witness for C3: a request by user 2 against an enrollment owned by
user 1 matches zero rows and yields 200 with an undefined body. -/
theorem updateProgress_zero_rows_witness :
    (updateProgress none
      [{ id := 3, user_id := 1, course_id := 2, progress := 40,
         created_at := 9 }] 3 2 55).1.status = 200 ∧
    (updateProgress none
      [{ id := 3, user_id := 1, course_id := 2, progress := 40,
         created_at := 9 }] 3 2 55).1.body = none ∧
    (updateProgress none
      [{ id := 3, user_id := 1, course_id := 2, progress := 40,
         created_at := 9 }] 3 2 55).1.status ≠ 403 ∧
    (updateProgress none
      [{ id := 3, user_id := 1, course_id := 2, progress := 40,
         created_at := 9 }] 3 2 55).1.status ≠ 404 :=
  updateProgress_zero_rows _ 3 2 55 (by decide)

/-! ### User-stats handler (src/app.js lines 256-298) -/

/-- Result of a supabase count query as the handler destructures it: the
count (null when the query fails) and the error field, which this handler
never reads. -/
structure CountResult where
  count : Option Nat
  error : Option String
deriving DecidableEq

/-- Result of the progress select as the handler destructures it. -/
structure ProgressResult where
  data : Option (List Int)
  error : Option String
deriving DecidableEq

/-- A failed count query: supabase reports the error and returns a null
count. -/
def CountResult.failed (q : CountResult) : Prop :=
  q.error ≠ none ∧ q.count = none

/-- A failed progress query: supabase reports the error and returns null
data. -/
def ProgressResult.failed (q : ProgressResult) : Prop :=
  q.error ≠ none ∧ q.data = none

/-- `Math.round`: round half toward positive infinity. -/
def mathRound (q : ℚ) : Int := ⌊q + 1 / 2⌋

/-- The averageProgress computation at src/app.js 273-275: `Math.round` of
the reduce-sum divided by the length when the list is nonempty, else 0. -/
def averageProgress (l : List Int) : Int :=
  if l.length > 0 then
    mathRound (((l.foldl (· + ·) 0 : Int) : ℚ) / (l.length : ℚ))
  else 0

/-- The body of a 200 stats response. -/
structure StatsBody where
  activeCourses : Option Nat
  averageProgress : Int
  certificates : Option Nat
  discussions : Option Nat
deriving DecidableEq

/-- A stats response: 200 with a body, or an error status with a message. -/
inductive StatsResponse where
  | ok (body : StatsBody)
  | err (status : Nat) (message : String)
deriving DecidableEq

/-- The HTTP status of a stats response. -/
def StatsResponse.status : StatsResponse → Nat
  | .ok _ => 200
  | .err s _ => s

/-- The user-stats handler given the four query results.  The code reads none
of the four error fields; the only failure that escapes is the TypeError
raised by `progressData.length` when the progress data is null, caught as
HTTP 500. -/
def userStats (q1 : CountResult) (q2 : ProgressResult) (q3 q4 : CountResult) :
    StatsResponse :=
  match q2.data with
  | none => .err 500 "Cannot read properties of null"
  | some progressData =>
    .ok { activeCourses := q1.count,
          averageProgress := averageProgress progressData,
          certificates := q3.count, discussions := q4.count }

/-- The list of progress values the stats progress query returns for a
user. -/
def userProgressList (db : List Enrollment) (userId : Nat) : List Int :=
  (db.filter fun e => e.user_id == userId).map Enrollment.progress

/-- The four stats queries evaluated against the store when all of them
succeed: count of enrollments with progress < 100, the progress list, the
certificate count and the discussion count (discussions modeled by their
user_id column). -/
def statsQueriesOk (db : List Enrollment) (certs : List Certificate)
    (discussionUsers : List Nat) (userId : Nat) :
    CountResult × ProgressResult × CountResult × CountResult :=
  ({ count := some
       ((db.filter fun e =>
          e.user_id == userId && decide (e.progress < 100)).length),
     error := none },
   { data := some (userProgressList db userId), error := none },
   { count := some ((certs.filter fun c => c.user_id == userId).length),
     error := none },
   { count := some ((discussionUsers.filter fun u => u == userId).length),
     error := none })

/-- The stats handler on the path where all four queries succeed. -/
def userStatsOk (db : List Enrollment) (certs : List Certificate)
    (discussionUsers : List Nat) (userId : Nat) : StatsResponse :=
  match statsQueriesOk db certs discussionUsers userId with
  | (q1, q2, q3, q4) => userStats q1 q2 q3 q4

/-- The handler reduce-sum is the list sum. -/
theorem foldl_add_eq_sum (l : List Int) : l.foldl (· + ·) 0 = l.sum := by
  rw [List.sum_eq_foldl]

/-- `Math.round` is at distance at most 1/2 from its argument. -/
theorem abs_mathRound_sub_le (q : ℚ) : |(mathRound q : ℚ) - q| ≤ 1 / 2 := by
  have h1 : ((⌊q + 1 / 2⌋ : ℤ) : ℚ) ≤ q + 1 / 2 := Int.floor_le _
  have h2 : q + 1 / 2 < ((⌊q + 1 / 2⌋ : ℤ) : ℚ) + 1 := Int.lt_floor_add_one _
  rw [mathRound, abs_le]
  constructor <;> linarith

/-! ### Claims C2, C5, C4 -/

/-- Counterexample to claim C2: the certificate-count query fails at the
store, yet the handler responds 200 with partially-computed aggregates
(certificates is null, the rest computed), not 500. -/
theorem userStats_partial_200_on_count_failure :
    ({ count := none, error := some "store failure" } : CountResult).failed ∧
    userStats { count := some 2, error := none }
      { data := some [50], error := none }
      { count := none, error := some "store failure" }
      { count := some 0, error := none } =
      .ok { activeCourses := some 2, averageProgress := 50,
            certificates := none, discussions := some 0 } ∧
    (userStats { count := some 2, error := none }
      { data := some [50], error := none }
      { count := none, error := some "store failure" }
      { count := some 0, error := none }).status = 200 := by
  refine ⟨⟨by simp, rfl⟩, ?_, rfl⟩
  have h : averageProgress [50] = 50 := by
    norm_num [averageProgress, mathRound]
  simp [userStats, h]

/-- Claim C2 as amended: only a failure of the progress-list query aborts the
handler (HTTP 500, via the TypeError on null data); a failure of any of the
three count queries is not detected — the handler responds 200 with a null
value for that aggregate and the remaining aggregates computed. -/
theorem userStats_error_handling (q1 : CountResult) (q2 : ProgressResult)
    (q3 q4 : CountResult) :
    (q2.failed →
      userStats q1 q2 q3 q4 = .err 500 "Cannot read properties of null") ∧
    (∀ pd, q2.data = some pd →
      (userStats q1 q2 q3 q4).status = 200 ∧
      (q1.failed →
        ∃ b, userStats q1 q2 q3 q4 = .ok b ∧ b.activeCourses = none) ∧
      (q3.failed →
        ∃ b, userStats q1 q2 q3 q4 = .ok b ∧ b.certificates = none) ∧
      (q4.failed →
        ∃ b, userStats q1 q2 q3 q4 = .ok b ∧ b.discussions = none)) := by
  constructor
  · rintro ⟨-, hd⟩
    simp [userStats, hd]
  · intro pd hd
    refine ⟨by simp [userStats, hd, StatsResponse.status], ?_, ?_, ?_⟩ <;>
      rintro ⟨-, hc⟩ <;>
      exact ⟨{ activeCourses := q1.count,
               averageProgress := averageProgress pd,
               certificates := q3.count, discussions := q4.count },
             by simp [userStats, hd], hc⟩

/-- Witness for the amended C2: a failed progress query gives 500; a failed
discussion-count query beside a successful progress query gives 200 with a
null discussion count. -/
theorem userStats_error_handling_witness :
    userStats { count := some 1, error := none }
      { data := none, error := some "store failure" }
      { count := some 0, error := none } { count := some 0, error := none } =
      .err 500 "Cannot read properties of null" ∧
    (userStats { count := some 1, error := none }
      { data := some [50], error := none }
      { count := some 0, error := none }
      { count := none, error := some "store failure" }).status = 200 ∧
    (∃ b, userStats { count := some 1, error := none }
      { data := some [50], error := none }
      { count := some 0, error := none }
      { count := none, error := some "store failure" } = .ok b ∧
      b.discussions = none) :=
  ⟨(userStats_error_handling _ _ _ _).1 ⟨by simp, rfl⟩,
   ((userStats_error_handling { count := some 1, error := none }
      { data := some [50], error := none }
      { count := some 0, error := none }
      { count := none, error := some "store failure" }).2 [50] rfl).1,
   ((userStats_error_handling { count := some 1, error := none }
      { data := some [50], error := none }
      { count := some 0, error := none }
      { count := none, error := some "store failure" }).2 [50]
        rfl).2.2.2 ⟨by simp, rfl⟩⟩

/-- Claim C5: for every user the stats averageProgress is the arithmetic mean
of the user's enrollment progress values rounded to the nearest integer (at
distance at most 1/2 from the mean), and is exactly 0 when the user has no
enrollments. -/
theorem stats_averageProgress_rounded_mean (db : List Enrollment)
    (certs : List Certificate) (ds : List Nat) (uid : Nat) :
    ∃ b, userStatsOk db certs ds uid = .ok b ∧
      (userProgressList db uid = [] → b.averageProgress = 0) ∧
      (userProgressList db uid ≠ [] →
        |(b.averageProgress : ℚ) -
          ((userProgressList db uid).sum : ℚ) /
            ((userProgressList db uid).length : ℚ)| ≤ 1 / 2) := by
  refine ⟨_, rfl, ?_, ?_⟩
  · intro h
    simp [averageProgress, h]
  · intro h
    have hlen : 0 < (userProgressList db uid).length := List.length_pos.mpr h
    show |(averageProgress (userProgressList db uid) : ℚ) - _| ≤ 1 / 2
    rw [averageProgress, if_pos hlen, foldl_add_eq_sum]
    exact abs_mathRound_sub_le _

/-- Witness for C5: a user with two enrollments of progress 2 and 3 has a
nonempty progress list, and the stats average is at distance at most 1/2
from its mean. -/
theorem stats_averageProgress_rounded_mean_witness :
    userProgressList
      [{ id := 1, user_id := 1, course_id := 1, progress := 2,
         created_at := 5 },
       { id := 2, user_id := 1, course_id := 2, progress := 3,
         created_at := 6 }] 1 ≠ [] ∧
    ∃ b, userStatsOk
        [{ id := 1, user_id := 1, course_id := 1, progress := 2,
           created_at := 5 },
         { id := 2, user_id := 1, course_id := 2, progress := 3,
           created_at := 6 }] [] [] 1 = .ok b ∧
      |(b.averageProgress : ℚ) -
        ((userProgressList
            [{ id := 1, user_id := 1, course_id := 1, progress := 2,
               created_at := 5 },
             { id := 2, user_id := 1, course_id := 2, progress := 3,
               created_at := 6 }] 1).sum : ℚ) /
          ((userProgressList
            [{ id := 1, user_id := 1, course_id := 1, progress := 2,
               created_at := 5 },
             { id := 2, user_id := 1, course_id := 2, progress := 3,
               created_at := 6 }] 1).length : ℚ)| ≤ 1 / 2 := by
  refine ⟨by decide, ?_⟩
  obtain ⟨b, hb, -, h2⟩ := stats_averageProgress_rounded_mean
    [{ id := 1, user_id := 1, course_id := 1, progress := 2, created_at := 5 },
     { id := 2, user_id := 1, course_id := 2, progress := 3, created_at := 6 }]
    [] [] 1
  exact ⟨b, hb, h2 (by decide)⟩

/-- Claim C4: the update-progress handler performs no range check — any
progress value outside [0,100] sent by the owning user is written verbatim
into the matching enrollment row, appears as-is in the stats progress list,
and the stats average is Math.round of the mean of the raw stored values
with no bounds checking or clamping. -/
theorem updateProgress_no_range_check (db : List Enrollment) (e : Enrollment)
    (uid : Nat) (p : Int) (he : e ∈ db) (hu : e.user_id = uid)
    (_hp : p < 0 ∨ 100 < p) :
    { e with progress := p } ∈ (updateProgress none db e.id uid p).2 ∧
    p ∈ userProgressList (updateProgress none db e.id uid p).2 uid ∧
    averageProgress
        (userProgressList (updateProgress none db e.id uid p).2 uid) =
      mathRound
        (((userProgressList (updateProgress none db e.id uid p).2 uid).sum :
            ℚ) /
          ((userProgressList
              (updateProgress none db e.id uid p).2 uid).length : ℚ)) := by
  have hmatch : matchesUpdate e e.id uid = true := by
    simp [matchesUpdate, hu]
  have hdb : (updateProgress none db e.id uid p).2 = updatedDb db e.id uid p :=
    rfl
  have hmem : { e with progress := p } ∈ (updateProgress none db e.id uid p).2 := by
    rw [hdb, updatedDb]
    exact List.mem_map.mpr ⟨e, he, by rw [hmatch]; simp⟩
  have hpl : p ∈ userProgressList (updateProgress none db e.id uid p).2 uid := by
    rw [userProgressList]
    refine List.mem_map.mpr ⟨{ e with progress := p }, ?_, rfl⟩
    refine List.mem_filter.mpr ⟨hmem, ?_⟩
    simp [hu]
  refine ⟨hmem, hpl, ?_⟩
  have hlen : 0 < (userProgressList (updateProgress none db e.id uid p).2 uid).length :=
    List.length_pos.mpr (fun hnil => by simp [hnil] at hpl)
  rw [averageProgress, if_pos hlen, foldl_add_eq_sum]

/-- Witness for C4: the owning user writes progress 150 into their single
enrollment; 150 is stored verbatim, flows into the stats list and the
average is Math.round(150/1) computed with no clamping. -/
theorem updateProgress_no_range_check_witness :
    { id := 1, user_id := 1, course_id := 1, progress := (150 : Int),
      created_at := 10 } ∈
      (updateProgress none
        [{ id := 1, user_id := 1, course_id := 1, progress := 0,
           created_at := 10 }] 1 1 150).2 ∧
    (150 : Int) ∈ userProgressList
      (updateProgress none
        [{ id := 1, user_id := 1, course_id := 1, progress := 0,
           created_at := 10 }] 1 1 150).2 1 ∧
    averageProgress
        (userProgressList
          (updateProgress none
            [{ id := 1, user_id := 1, course_id := 1, progress := 0,
               created_at := 10 }] 1 1 150).2 1) =
      mathRound
        (((userProgressList
            (updateProgress none
              [{ id := 1, user_id := 1, course_id := 1, progress := 0,
                 created_at := 10 }] 1 1 150).2 1).sum : ℚ) /
          ((userProgressList
            (updateProgress none
              [{ id := 1, user_id := 1, course_id := 1, progress := 0,
                 created_at := 10 }] 1 1 150).2 1).length : ℚ)) :=
  updateProgress_no_range_check
    [{ id := 1, user_id := 1, course_id := 1, progress := 0,
       created_at := 10 }]
    { id := 1, user_id := 1, course_id := 1, progress := 0, created_at := 10 }
    1 150 (List.mem_singleton.mpr rfl) rfl (Or.inr (by decide))

/-! ### User-activity handler (src/app.js lines 301-342) -/

/-- Row shape returned by the activity enrollments query
`select('created_at, course:courses(title)')`: only created_at and the joined
course title are selected.  `progress` is NOT in the select list, so the
handler's later read of `item.progress` yields `undefined`, modeled as the
projection always storing `none` here. -/
structure EnrollActivityRow where
  created_at : Nat
  courseTitle : String
  progress : Option Int
deriving DecidableEq

/-- Row shape returned by the activity certificates query
`select('issued_at, course:courses(title)')`. -/
structure CertActivityRow where
  issued_at : Nat
  courseTitle : String
deriving DecidableEq

/-- The joined course title for a course id (the foreign key is assumed to
resolve). -/
def titleOf (courses : List Course) (cid : Nat) : String :=
  ((courses.find? fun c => c.id == cid).map Course.title).getD ""

/-- The activity enrollments query: filter by user, order by created_at
descending, limit 5, project created_at and the joined title (progress is
omitted from the projection). -/
def enrollActivityQuery (db : List Enrollment) (courses : List Course)
    (uid : Nat) : List EnrollActivityRow :=
  ((((db.filter fun e => e.user_id == uid).mergeSort
      fun a b => b.created_at ≤ a.created_at).take 5).map
    fun e => { created_at := e.created_at,
               courseTitle := titleOf courses e.course_id,
               progress := none })

/-- The activity certificates query: filter by user, order by issued_at
descending, limit 5, project issued_at and the joined title. -/
def certActivityQuery (certs : List Certificate) (courses : List Course)
    (uid : Nat) : List CertActivityRow :=
  ((((certs.filter fun c => c.user_id == uid).mergeSort
      fun a b => b.issued_at ≤ a.issued_at).take 5).map
    fun c => { issued_at := c.issued_at,
               courseTitle := titleOf courses c.course_id })

/-- One item of the activity feed. -/
structure ActivityItem where
  type : String
  message : String
  timestamp : Nat
deriving DecidableEq

/-- Activity item built from an enrollment row (src/app.js 323-329): the type
and message branch on `item.progress === 100`. -/
def enrollActivityItem (item : EnrollActivityRow) : ActivityItem :=
  { type := if item.progress = some 100 then "course_completed"
            else "course_started",
    message := if item.progress = some 100 then
        "Completed course \"" ++ item.courseTitle ++ "\""
      else
        "Started course \"" ++ item.courseTitle ++ "\"",
    timestamp := item.created_at }

/-- Activity item built from a certificate row (src/app.js 330-334). -/
def certActivityItem (item : CertActivityRow) : ActivityItem :=
  { type := "certificate_earned",
    message := "Earned certificate for \"" ++ item.courseTitle ++ "\"",
    timestamp := item.issued_at }

/-- The user-activity handler on the path where both queries succeed: map
both row lists to items, merge, sort descending by timestamp, take the
first 5. -/
def userActivity (db : List Enrollment) (certs : List Certificate)
    (courses : List Course) (uid : Nat) : List ActivityItem :=
  (((enrollActivityQuery db courses uid).map enrollActivityItem ++
    (certActivityQuery certs courses uid).map certActivityItem).mergeSort
      fun a b => b.timestamp ≤ a.timestamp).take 5

/-! ### Claims C1 and C6 -/

unseal List.merge List.mergeSort in
/-- Claim C1 fails on the code: a user whose single enrollment has progress
100 gets an activity item of type "course_started", because the enrollment
query projects out the progress column and `item.progress === 100` compares
`undefined` with 100.  The certificate in the same feed is correctly typed
"certificate_earned". -/
theorem activity_completed_enrollment_mislabeled :
    userActivity
      [{ id := 1, user_id := 1, course_id := 1, progress := 100,
         created_at := 10 }]
      [{ user_id := 1, course_id := 1, issued_at := 8 }]
      [{ id := 1, title := "Algebra" }] 1 =
    [{ type := "course_started",
       message := "Started course \"Algebra\"", timestamp := 10 },
     { type := "certificate_earned",
       message := "Earned certificate for \"Algebra\"", timestamp := 8 }] := by
  decide

/-- Claim C6: for every store contents the activity feed holds at most 5
items and is sorted in descending order of timestamp. -/
theorem userActivity_sorted_and_bounded (db : List Enrollment)
    (certs : List Certificate) (courses : List Course) (uid : Nat) :
    (userActivity db certs courses uid).length ≤ 5 ∧
    (userActivity db certs courses uid).Pairwise
      (fun a b => b.timestamp ≤ a.timestamp) := by
  constructor
  · rw [userActivity, List.length_take]
    exact Nat.min_le_left _ _
  · rw [userActivity]
    have hsorted :
        (((enrollActivityQuery db courses uid).map enrollActivityItem ++
          (certActivityQuery certs courses uid).map certActivityItem).mergeSort
            fun a b => b.timestamp ≤ a.timestamp).Pairwise
          (fun a b => (decide (b.timestamp ≤ a.timestamp)) = true) := by
      exact List.sorted_mergeSort
        (by intro a b c h1 h2; simp only [decide_eq_true_eq] at *; omega)
        (by intro a b; simp only [Bool.or_eq_true, decide_eq_true_eq]; omega)
        _
    exact (List.Pairwise.sublist (List.take_sublist 5 _) hsorted).imp
      (fun h => by simpa using h)

end EdRwanda
